import Mathlib

/-!
Verification of the resource cache synchronizer of a react-query CRUD
front end.  Each resource page (Comments, Posts, Todos, Recipes) keeps an
in-memory cached list of records and patches it in the mutation handlers:
create inserts the server's returned record, update maps over the list
replacing the record with the matching id, delete filters the id out, and
the error handlers only log, leaving the cache alone.

The cache as held by the query client is `Option (List T)`: `none` when the
query data is absent (undefined), `some l` once populated.  Each updater
below transcribes one `queryClient.setQueryData` callback.
-/

namespace CacheSync

/-- `interface Comment` from src/src/pages/Comments.tsx. -/
structure Comment where
  id : Nat
  body : String
deriving DecidableEq, Repr

/-- `interface Post` from the Posts page in src/src/pages/Comments.tsx. -/
structure Post where
  id : Nat
  title : String
  body : String
  tags : List String
  views : Nat
  userId : Nat
deriving DecidableEq, Repr

/-- `interface Todo` from src/unnamed/part_000. -/
structure Todo where
  id : Nat
  todo : String
  completed : Bool
  userId : Nat
deriving DecidableEq, Repr

/-- `interface Recipe` from src/unnamed/part_001. -/
structure Recipe where
  id : Nat
  name : String
  ingredients : List String
  instructions : String
deriving DecidableEq, Repr

/-! ### Comments page cache updaters (src/src/pages/Comments.tsx) -/

/-- `createMutation.onSuccess` for comments:
`(oldComments = []) => [data, ...oldComments]` — prepend, defaulting an
absent cache to the empty list. -/
def createCommentsUpdater (data : Comment) (old : Option (List Comment)) :
    Option (List Comment) :=
  some (data :: old.getD [])

/-- `updateMutation.onSuccess` for comments:
`oldComments?.map((comment) => (comment.id === updatedComment.id ? updatedComment : comment))`
— when the cache is absent the callback returns undefined and the cache
stays absent. -/
def updateCommentsUpdater (u : Comment) (old : Option (List Comment)) :
    Option (List Comment) :=
  old.map (fun l => l.map (fun comment => if comment.id = u.id then u else comment))

/-- `deleteMutation.onSuccess` for comments:
`oldComments?.filter((comment) => comment.id !== deletedId)`. -/
def deleteCommentsUpdater (deletedId : Nat) (old : Option (List Comment)) :
    Option (List Comment) :=
  old.map (fun l => l.filter (fun comment => comment.id != deletedId))

/-! ### Posts page cache updaters (same source file, `Posts` component) -/

/-- `createMutation.onSuccess` for posts:
`(oldPosts) => [...(oldPosts || []), newPost]` — append. -/
def createPostsUpdater (newPost : Post) (old : Option (List Post)) :
    Option (List Post) :=
  some (old.getD [] ++ [newPost])

/-- `updateMutation.onSuccess` for posts. -/
def updatePostsUpdater (u : Post) (old : Option (List Post)) :
    Option (List Post) :=
  old.map (fun l => l.map (fun post => if post.id = u.id then u else post))

/-- `deleteMutation.onSuccess` for posts. -/
def deletePostsUpdater (deletedId : Nat) (old : Option (List Post)) :
    Option (List Post) :=
  old.map (fun l => l.filter (fun post => post.id != deletedId))

/-! ### Todos page cache updaters (src/unnamed/part_000) -/

/-- `createMutation.onSuccess` for todos:
`(oldTodos = []) => [data, ...oldTodos]` — prepend. -/
def createTodosUpdater (data : Todo) (old : Option (List Todo)) :
    Option (List Todo) :=
  some (data :: old.getD [])

/-- `updateMutation.onSuccess` for todos:
`oldTodos?.map((todo) => (todo.id === updatedTodo.id ? updatedTodo : todo)) || []`
— an absent cache becomes the empty list (the `|| []` fallback). -/
def updateTodosUpdater (u : Todo) (old : Option (List Todo)) :
    Option (List Todo) :=
  some ((old.map (fun l => l.map (fun todo => if todo.id = u.id then u else todo))).getD [])

/-- `deleteMutation.onSuccess` for todos:
`oldTodos?.filter((todo) => todo.id !== deletedId)`. -/
def deleteTodosUpdater (deletedId : Nat) (old : Option (List Todo)) :
    Option (List Todo) :=
  old.map (fun l => l.filter (fun todo => todo.id != deletedId))

/-! ### Recipes page cache updaters (src/unnamed/part_001) -/

/-- `createMutation.onSuccess` for recipes:
`(old) => old ? [...old, data] : [data]` — append. -/
def createRecipesUpdater (data : Recipe) (old : Option (List Recipe)) :
    Option (List Recipe) :=
  match old with
  | some l => some (l ++ [data])
  | none => some [data]

/-- `updateMutation.onSuccess` for recipes:
`(old) => old ? old.map((r) => (r.id === updatedRecipe.id ? updatedRecipe : r)) : []`. -/
def updateRecipesUpdater (u : Recipe) (old : Option (List Recipe)) :
    Option (List Recipe) :=
  match old with
  | some l => some (l.map (fun r => if r.id = u.id then u else r))
  | none => some []

/-- `deleteMutation.onSuccess` for recipes:
`(old) => old ? old.filter((r) => r.id !== id) : []`. -/
def deleteRecipesUpdater (deletedId : Nat) (old : Option (List Recipe)) :
    Option (List Recipe) :=
  match old with
  | some l => some (l.filter (fun r => r.id != deletedId))
  | none => some []

/-! ### Settled mutations

A mutation resolves either `.ok` with the server's record (running the
`onSuccess` cache patch) or `.error` (running `onError`, which in the
source only calls `console.error`, or does not exist at all — in either
case the cache is not written).  The second component is the message the
handler reports to the console, `none` when nothing is reported. -/

/-- Todos `updateMutation` as a function of the settled result; the error
branch is `console.error("Failed to update todo:", error)` and no cache
write. -/
def updateTodosSettled (res : Except String Todo) (cache : Option (List Todo)) :
    Option (List Todo) × Option String :=
  match res with
  | .ok u => (updateTodosUpdater u cache, none)
  | .error e => (cache, some ("Failed to update todo: " ++ e))

/-- Todos `createMutation` as a function of the settled result; the error
branch is `console.error("Failed to add todo:", error)`. -/
def createTodosSettled (res : Except String Todo) (cache : Option (List Todo)) :
    Option (List Todo) × Option String :=
  match res with
  | .ok d => (createTodosUpdater d cache, none)
  | .error e => (cache, some ("Failed to add todo: " ++ e))

/-- Todos `deleteMutation` as a function of the settled result; it has no
`onError` handler, so a failure touches neither the cache nor the console. -/
def deleteTodosSettled (res : Except String Unit) (deletedId : Nat)
    (cache : Option (List Todo)) : Option (List Todo) × Option String :=
  match res with
  | .ok _ => (deleteTodosUpdater deletedId cache, none)
  | .error _ => (cache, none)

/-- Comments `createMutation` as a function of the settled result; the
error branch is `console.error("Failed to add comment:", error)`. -/
def createCommentsSettled (res : Except String Comment)
    (cache : Option (List Comment)) : Option (List Comment) × Option String :=
  match res with
  | .ok d => (createCommentsUpdater d cache, none)
  | .error e => (cache, some ("Failed to add comment: " ++ e))

/-! ### Generic lemmas about the three cache-patch shapes

All four resource pages use the same three list transformations; these
lemmas are stated over an arbitrary record type with a `Nat`-valued key. -/

/-- Replacing every record whose key matches `u`'s key by `u` does not
change the list of keys. -/
theorem map_key_replace {α : Type} (key : α → Nat) (u : α) (l : List α) :
    ((l.map fun c => if key c = key u then u else c).map key) = l.map key := by
  induction l with
  | nil => rfl
  | cons c l ih =>
    simp only [List.map_cons, ih]
    by_cases h : key c = key u
    · simp [h]
    · simp [h]

/-- When no record in the list carries `u`'s key, the replace-by-key map
is the identity. -/
theorem replace_eq_self_of_not_mem {α : Type} (key : α → Nat) (u : α)
    (l : List α) (h : key u ∉ l.map key) :
    (l.map fun c => if key c = key u then u else c) = l := by
  induction l with
  | nil => rfl
  | cons c l ih =>
    simp only [List.map_cons, List.mem_cons, not_or] at h
    have hne : ¬ key c = key u := fun hc => h.1 hc.symm
    simp only [List.map_cons, if_neg hne, ih h.2]

/-- Filtering out a key that appears nowhere in the list is the identity. -/
theorem filter_key_eq_self_of_not_mem {α : Type} (key : α → Nat) (did : Nat)
    (l : List α) (h : did ∉ l.map key) :
    (l.filter fun c => key c != did) = l := by
  induction l with
  | nil => rfl
  | cons c l ih =>
    simp only [List.map_cons, List.mem_cons, not_or] at h
    have hc : (key c != did) = true := by
      simp [bne_iff_ne]
      exact fun he => h.1 (he.symm)
    simp only [List.filter_cons, hc, if_pos trivial, ih h.2]

/-- Filtering out a key that does occur, in a list with pairwise distinct
keys, removes exactly one record. -/
theorem filter_key_length {α : Type} (key : α → Nat) (did : Nat)
    (l : List α) (hnd : (l.map key).Nodup) (hmem : did ∈ l.map key) :
    (l.filter fun c => key c != did).length + 1 = l.length := by
  induction l with
  | nil => simp at hmem
  | cons c l ih =>
    simp only [List.map_cons, List.nodup_cons] at hnd
    simp only [List.map_cons, List.mem_cons] at hmem
    rcases hmem with h | h
    · have hc : (key c != did) = false := by simp [bne_iff_ne, h]
      simp only [List.filter_cons, hc, Bool.false_eq_true, if_neg]
      rw [filter_key_eq_self_of_not_mem key did l (h ▸ hnd.1)]
      simp
    · have hne : key c ≠ did := fun he => hnd.1 (he ▸ h)
      have hc : (key c != did) = true := by simp [bne_iff_ne, hne]
      simp only [List.filter_cons, hc, if_pos trivial, List.length_cons]
      rw [ih hnd.2 h]

/-- Every record surviving the delete filter has a key different from the
deleted one. -/
theorem filter_key_not_mem {α : Type} (key : α → Nat) (did : Nat)
    (l : List α) : ∀ c ∈ l.filter (fun c => key c != did), key c ≠ did := by
  intro c hc
  have h := (List.mem_filter.mp hc).2
  simpa [bne_iff_ne] using h

/-- The delete filter is idempotent. -/
theorem filter_key_idem {α : Type} (key : α → Nat) (did : Nat) (l : List α) :
    ((l.filter fun c => key c != did).filter fun c => key c != did) =
      l.filter fun c => key c != did := by
  induction l with
  | nil => rfl
  | cons c l ih =>
    by_cases h : (key c != did) = true
    · simp only [List.filter_cons, h, if_pos trivial, ih]
    · simp only [List.filter_cons, h, Bool.false_eq_true, if_neg, ih]
      simp at h
      simp [h, ih]

/-- A filtered list keeps pairwise-distinct keys. -/
theorem nodup_filter_key {α : Type} (key : α → Nat) (p : α → Bool)
    (l : List α) (hnd : (l.map key).Nodup) : ((l.filter p).map key).Nodup :=
  List.Nodup.sublist (List.Sublist.map key (List.filter_sublist l)) hnd

/-! ### Query state machine for `fetchAll` (C9)

`useQuery` itself lives in the @tanstack/react-query library, outside this
repository's sources; only its call sites (`useQuery(fetchTodos)`,
`useQuery(fetchComments)`) are in src/. -/

/-- Modelled from the spec: the per-operation state machine
`{idle, fetching, success, error}` the spec ascribes to `fetchAll`
(the `useQuery` implementation is library code, not in src/). -/
inductive QueryStatus where
  | idle
  | fetching
  | success
  | error
deriving DecidableEq, Repr

/-- Modelled from the spec: a query's observable state — its status plus
the cached collection, `none` while never populated. -/
structure QueryState (α : Type) where
  status : QueryStatus
  data : Option α

/-- Modelled from the spec: issuing `fetchAll` puts the query in the
pending (loading) state; the cached data is untouched while pending. -/
def fetchStart {α : Type} (s : QueryState α) : QueryState α :=
  { s with status := QueryStatus.fetching }

/-- Modelled from the spec: a settled `fetchAll` either populates the
cache from the retrieved collection, or signals a RetrievalError and
leaves any existing cache untouched. -/
def fetchSettle {α : Type} (res : Except String α) (s : QueryState α) :
    QueryState α :=
  match res with
  | .ok v => { status := QueryStatus.success, data := some v }
  | .error _ => { s with status := QueryStatus.error }

/-! ### Claim theorems -/

/-- C1: every successful create grows the cache by exactly one record; the
newly inserted record is the server's returned record (hence carries the
server-assigned id), and all previously cached records remain.  Stated for
the two cited resources, comments and todos. -/
theorem create_adds_exactly_one_record (d : Comment) (t : Todo)
    (oc : List Comment) (ot : List Todo) :
    (∃ ac, createCommentsUpdater d (some oc) = some ac ∧
      ac.length = oc.length + 1 ∧ d ∈ ac ∧ ∀ c ∈ oc, c ∈ ac) ∧
    (∃ at2, createTodosUpdater t (some ot) = some at2 ∧
      at2.length = ot.length + 1 ∧ t ∈ at2 ∧ ∀ c ∈ ot, c ∈ at2) := by
  constructor
  · exact ⟨d :: oc, rfl, by simp, by simp, fun c hc => by simp [hc]⟩
  · exact ⟨t :: ot, rfl, by simp, by simp, fun c hc => by simp [hc]⟩

/-- C4: when a mutation fails, the cache is left exactly as it was — the
error branches only report (or, for the todos delete, do nothing at all)
and never write the cache.  Stated for every settled mutation embedded
from the cited sources. -/
theorem failed_mutation_leaves_cache (e : String) (did : Nat)
    (ct : Option (List Todo)) (cc : Option (List Comment)) :
    (updateTodosSettled (Except.error e) ct).1 = ct ∧
    (createTodosSettled (Except.error e) ct).1 = ct ∧
    (deleteTodosSettled (Except.error e) did ct).1 = ct ∧
    (createCommentsSettled (Except.error e) cc).1 = cc ∧
    (updateTodosSettled (Except.error e) ct).2 =
      some ("Failed to update todo: " ++ e) ∧
    (createCommentsSettled (Except.error e) cc).2 =
      some ("Failed to add comment: " ++ e) :=
  ⟨rfl, rfl, rfl, rfl, rfl, rfl⟩

/-- C6: delete is idempotent on the cache: applying the delete patch for
the same id twice gives the same cache as applying it once.  Stated for
the two cited resources, todos and recipes, over any cache state. -/
theorem delete_idempotent_on_cache (did : Nat) (ct : Option (List Todo))
    (cr : Option (List Recipe)) :
    deleteTodosUpdater did (deleteTodosUpdater did ct) =
      deleteTodosUpdater did ct ∧
    deleteRecipesUpdater did (deleteRecipesUpdater did cr) =
      deleteRecipesUpdater did cr := by
  constructor
  · cases ct with
    | none => rfl
    | some l =>
      show some ((l.filter fun todo => todo.id != did).filter
          fun todo => todo.id != did) = some (l.filter fun todo => todo.id != did)
      rw [filter_key_idem Todo.id did l]
  · cases cr with
    | none => rfl
    | some l =>
      show some ((l.filter fun r => r.id != did).filter
          fun r => r.id != did) = some (l.filter fun r => r.id != did)
      rw [filter_key_idem Recipe.id did l]

/-- C8: the insertion position of a successful create is resource-specific
and fixed: comments and todos prepend the returned record, posts and
recipes append it. -/
theorem create_position_per_resource (c : Comment) (t : Todo) (p : Post)
    (r : Recipe) (oc : List Comment) (ot : List Todo) (op : List Post)
    (orc : List Recipe) :
    createCommentsUpdater c (some oc) = some (c :: oc) ∧
    createTodosUpdater t (some ot) = some (t :: ot) ∧
    createPostsUpdater p (some op) = some (op ++ [p]) ∧
    createRecipesUpdater r (some orc) = some (orc ++ [r]) :=
  ⟨rfl, rfl, rfl, rfl⟩

/-- C10: the update cache patch is a per-element map, so a successful
update never changes the number of cached records, whether or not the id
is present.  Stated for the two cited resources, todos and recipes. -/
theorem update_preserves_cache_size (u : Todo) (v : Recipe)
    (ot : List Todo) (orc : List Recipe) :
    (∃ a, updateTodosUpdater u (some ot) = some a ∧ a.length = ot.length) ∧
    (∃ a, updateRecipesUpdater v (some orc) = some a ∧ a.length = orc.length) := by
  constructor
  · exact ⟨_, rfl, by simp⟩
  · exact ⟨_, rfl, by simp⟩

/-- C9: a failed `fetchAll` signals the error status and leaves any
existing cached collection untouched; while pending, consumers observe
the loading state. -/
theorem fetch_failure_keeps_cache {α : Type} (e : String) (s : QueryState α) :
    (fetchStart s).status = QueryStatus.fetching ∧
    (fetchSettle (Except.error e) (fetchStart s)).data = s.data ∧
    (fetchSettle (Except.error e) (fetchStart s)).status = QueryStatus.error :=
  ⟨rfl, rfl, rfl⟩

/-- C2: a successful update whose id pre-exists in the cache replaces the
record at that key with the server's returned record and leaves every
other record unchanged, in place (same records, same order). -/
theorem update_replaces_exactly_matching (u : Todo) (old : List Todo)
    (h : u.id ∈ old.map Todo.id) :
    ∃ after, updateTodosUpdater u (some old) = some after ∧
      after.length = old.length ∧
      (∃ i c, old.get? i = some c ∧ c.id = u.id ∧ after.get? i = some u) ∧
      (∀ i c, old.get? i = some c → c.id ≠ u.id → after.get? i = some c) := by
  refine ⟨old.map (fun todo : Todo => if todo.id = u.id then u else todo),
    rfl, by simp, ?_, ?_⟩
  · obtain ⟨c, hc, hid⟩ := List.mem_map.mp h
    obtain ⟨i, hi⟩ := List.get?_of_mem hc
    refine ⟨i, c, hi, hid, ?_⟩
    rw [List.get?_map, hi]
    simp [hid]
  · intro i c hi hne
    rw [List.get?_map, hi]
    simp [hne]

/-- Witness for C2, the spec's scenario: the cache
`[(id 1, todo "a", not completed)]` updated with the resolved record
`(id 1, todo "a", completed)`. -/
theorem update_replaces_exactly_matching_witness :
    (Todo.mk 1 "a" true 1).id ∈ [Todo.mk 1 "a" false 1].map Todo.id ∧
    (∃ after,
      updateTodosUpdater (Todo.mk 1 "a" true 1) (some [Todo.mk 1 "a" false 1]) =
        some after ∧
      after.length = [Todo.mk 1 "a" false 1].length ∧
      (∃ i c, [Todo.mk 1 "a" false 1].get? i = some c ∧
        c.id = (Todo.mk 1 "a" true 1).id ∧ after.get? i = some (Todo.mk 1 "a" true 1)) ∧
      (∀ i c, [Todo.mk 1 "a" false 1].get? i = some c →
        c.id ≠ (Todo.mk 1 "a" true 1).id → after.get? i = some c)) :=
  ⟨by decide, update_replaces_exactly_matching _ _ (by decide)⟩

/-- C3: a successful delete leaves no record with the deleted key in the
cache; on a cache with pairwise-distinct ids the size drops by exactly one
when the key was present and the cache is untouched when it was absent. -/
theorem delete_removes_key_exactly (did : Nat) (old : List Todo)
    (hnd : (old.map Todo.id).Nodup) :
    ∃ after, deleteTodosUpdater did (some old) = some after ∧
      (∀ t ∈ after, t.id ≠ did) ∧
      (did ∈ old.map Todo.id → after.length + 1 = old.length) ∧
      (did ∉ old.map Todo.id → after = old) := by
  refine ⟨old.filter (fun todo => todo.id != did), rfl, ?_, ?_, ?_⟩
  · exact filter_key_not_mem Todo.id did old
  · exact fun h => filter_key_length Todo.id did old hnd h
  · exact fun h => filter_key_eq_self_of_not_mem Todo.id did old h

/-- Witness for C3, the spec's scenario: delete id 2 from a two-record
cache holding ids 1 and 2. -/
theorem delete_removes_key_exactly_witness :
    ([Todo.mk 1 "a" false 1, Todo.mk 2 "b" false 1].map Todo.id).Nodup ∧
    (∃ after,
      deleteTodosUpdater 2 (some [Todo.mk 1 "a" false 1, Todo.mk 2 "b" false 1]) =
        some after ∧
      (∀ t ∈ after, t.id ≠ 2) ∧
      (2 ∈ [Todo.mk 1 "a" false 1, Todo.mk 2 "b" false 1].map Todo.id →
        after.length + 1 = [Todo.mk 1 "a" false 1, Todo.mk 2 "b" false 1].length) ∧
      (2 ∉ [Todo.mk 1 "a" false 1, Todo.mk 2 "b" false 1].map Todo.id →
        after = [Todo.mk 1 "a" false 1, Todo.mk 2 "b" false 1])) :=
  ⟨by decide, delete_removes_key_exactly 2 _ (by decide)⟩

/-- C7: a successful update whose id is absent from the cache is silently
ignored: the cache is unchanged and nothing is reported. -/
theorem update_absent_key_ignored (u : Todo) (old : List Todo)
    (h : u.id ∉ old.map Todo.id) :
    updateTodosSettled (Except.ok u) (some old) = (some old, none) := by
  have hstep : updateTodosSettled (Except.ok u) (some old) =
      (some (old.map fun todo => if todo.id = u.id then u else todo), none) := rfl
  rw [hstep, replace_eq_self_of_not_mem Todo.id u old h]

/-- Witness for C7: updating id 7 against a cache holding only id 1. -/
theorem update_absent_key_ignored_witness :
    (Todo.mk 7 "x" false 1).id ∉ [Todo.mk 1 "a" false 1].map Todo.id ∧
    updateTodosSettled (Except.ok (Todo.mk 7 "x" false 1))
      (some [Todo.mk 1 "a" false 1]) = (some [Todo.mk 1 "a" false 1], none) :=
  ⟨by decide, update_absent_key_ignored _ _ (by decide)⟩

/-- C5 counterexample: the create patch performs no deduplication, so a
successful create whose server-assigned id already exists in the cache
produces two records with the same id, violating the at-most-one-record
per-id invariant. -/
theorem create_duplicate_key_counterexample :
    ¬ (((createCommentsUpdater (Comment.mk 1 "b")
        (some [Comment.mk 1 "a"])).getD []).map Comment.id).Nodup := by
  decide

/-- C5 amended: a successful fetch replaces the cache by the retrieved
collection, so it yields a cache with no duplicate ids whenever the
retrieved collection itself has pairwise-distinct ids; update and delete
preserve the at-most-one-record-per-id invariant from any cache satisfying
it; and create preserves it exactly when the server-assigned id is not
already present in the cache. -/
theorem cache_ops_preserve_unique_keys (u d : Comment) (did : Nat)
    (old fetched : List Comment) (s : QueryState (List Comment))
    (hnd : (old.map Comment.id).Nodup)
    (hd : d.id ∉ old.map Comment.id)
    (hf : (fetched.map Comment.id).Nodup) :
    (∃ a, (fetchSettle (Except.ok fetched) s).data = some a ∧
      (a.map Comment.id).Nodup) ∧
    (∃ a, updateCommentsUpdater u (some old) = some a ∧
      (a.map Comment.id).Nodup) ∧
    (∃ a, deleteCommentsUpdater did (some old) = some a ∧
      (a.map Comment.id).Nodup) ∧
    (∃ a, createCommentsUpdater d (some old) = some a ∧
      (a.map Comment.id).Nodup) := by
  refine ⟨⟨fetched, rfl, hf⟩,
    ⟨old.map (fun comment : Comment => if comment.id = u.id then u else comment), rfl, ?_⟩,
    ⟨old.filter (fun comment => comment.id != did), rfl, ?_⟩,
    ⟨d :: old, rfl, ?_⟩⟩
  · rw [map_key_replace Comment.id u old]
    exact hnd
  · exact nodup_filter_key Comment.id (fun comment => comment.id != did) old hnd
  · simp only [List.map_cons, List.nodup_cons]
    exact ⟨fun hmem => hd hmem, hnd⟩

/-- Witness for the amended C5: cache `[id 1]`, a fetched collection
`[id 3]` with distinct ids, update with id 1, delete id 1, create with
fresh id 2. -/
theorem cache_ops_preserve_unique_keys_witness :
    ([Comment.mk 1 "a"].map Comment.id).Nodup ∧
    (Comment.mk 2 "c").id ∉ [Comment.mk 1 "a"].map Comment.id ∧
    ([Comment.mk 3 "d"].map Comment.id).Nodup ∧
    ((∃ a, (fetchSettle (Except.ok [Comment.mk 3 "d"])
        (QueryState.mk QueryStatus.idle none)).data = some a ∧
        (a.map Comment.id).Nodup) ∧
      (∃ a, updateCommentsUpdater (Comment.mk 1 "b") (some [Comment.mk 1 "a"]) =
        some a ∧ (a.map Comment.id).Nodup) ∧
      (∃ a, deleteCommentsUpdater 1 (some [Comment.mk 1 "a"]) = some a ∧
        (a.map Comment.id).Nodup) ∧
      (∃ a, createCommentsUpdater (Comment.mk 2 "c") (some [Comment.mk 1 "a"]) =
        some a ∧ (a.map Comment.id).Nodup)) :=
  ⟨by decide, by decide, by decide,
    cache_ops_preserve_unique_keys _ _ 1 _ _ _ (by decide) (by decide) (by decide)⟩

end CacheSync
